import Mathlib

/-!
Verification of the `bitwarden-passwordless-python` client SDK
(`src/passwordless/client.py`, `src/passwordless/models.py`) against its
natural-language specification.

The Python code is shallowly embedded: the pure request-building and
response-handling halves of each client method become Lean functions; the
external HTTP transport is factored out, so each operation is modelled as
a pair (request builder, response handler).  Timestamps are modelled as
natural numbers (seconds); JSON documents are modelled by an inductive
`Json` type, and a response carries both its raw text and the JSON parse
of that text (the string-level JSON grammar itself is not re-embedded).
The modules `serialization.py`, `config.py` and `errors.py` are part of
the repository but are not among the given sources; the definitions that
embed them are modelled from the specification and say so in their doc
comments.
-/

/-- Timestamps (`datetime` in the Python code) are modelled as natural
numbers: an absolute time in seconds.  `timedelta(minutes=2)` is 120. -/
abbrev DateTime := Nat

/-- A JSON document, used to model the wire representation of
request/response bodies. -/
inductive Json where
  | null : Json
  | bool (b : Bool) : Json
  | num (n : Int) : Json
  | str (s : String) : Json
  | arr (xs : List Json) : Json
  | obj (fields : List (String × Json)) : Json

/-- Field lookup in a JSON object (first binding wins); `none` on
non-objects or absent fields. -/
def Json.getField : Json → String → Option Json
  | .obj fields, key => (fields.find? (fun p => p.fst == key)).map Prod.snd
  | _, _ => none

def Json.asString : Json → Option String
  | .str s => some s
  | _ => none

def Json.asNat : Json → Option Nat
  | .num n => if n < 0 then none else some n.toNat
  | _ => none

def Json.asBool : Json → Option Bool
  | .bool b => some b
  | _ => none

def Json.asArr : Json → Option (List Json)
  | .arr xs => some xs
  | _ => none

/-- Strict element-wise decoding of a JSON array: fails if any element
fails, preserving order. -/
def decodeListWith (dec : Json → Option α) : List Json → Option (List α)
  | [] => some []
  | j :: js => do
    let x ← dec j
    let xs ← decodeListWith dec js
    pure (x :: xs)

/-! ## Data model (`models.py`) -/

/-- `CreateAlias` request record (`models.py`). -/
structure CreateAlias where
  user_id : String
  aliases : List String
  hashing : Bool := true
deriving Repr, DecidableEq

/-- `Alias` response record (`models.py`). -/
structure Alias where
  user_id : String
  «alias» : String
  plaintext : String
  tenant : String
deriving Repr, DecidableEq

/-- `ListResponse` generic list envelope (`models.py`). -/
structure ListResponse (α : Type) where
  values : List α
deriving Repr, DecidableEq

/-- `UpdateAppsFeature` request record (`models.py`). -/
structure UpdateAppsFeature where
  audit_logging_retention_period : Int
deriving Repr, DecidableEq

/-- `DeleteCredential` request record (`models.py`). -/
structure DeleteCredential where
  credential_id : String
deriving Repr, DecidableEq

/-- `CredentialDescriptor` record (`models.py`); `transports` is optional. -/
structure CredentialDescriptor where
  type : String
  id : String
  transports : Option (List String) := none
deriving Repr, DecidableEq

/-- `Credential` response record (`models.py`). -/
structure Credential where
  descriptor : CredentialDescriptor
  public_key : String
  user_handle : String
  signature_counter : Nat
  attestation_fmt : String
  created_at : DateTime
  aa_guid : String
  last_user_at : DateTime
  rp_id : String
  origin : String
  country : String
  device : String
  user_id : String
deriving Repr, DecidableEq

/-- `RegisterToken` request record (`models.py`).  The Python dataclass
gives `expires_at` the default `datetime.utcnow() + timedelta(minutes=2)`,
an expression evaluated once when `models.py` is loaded; see
`RegisterToken.mkDefault`. -/
structure RegisterToken where
  user_id : String
  username : String
  display_name : String
  attestation : String := "none"
  authenticator_type : String := "any"
  discoverable : Bool := true
  user_verification : String := "preferred"
  aliases : List String := []
  alias_hashing : Bool := true
  expires_at : DateTime
deriving Repr, DecidableEq

/-- The default value of `RegisterToken.expires_at` in `models.py`:
`datetime.utcnow() + timedelta(minutes=2)`.  In Python this expression is
evaluated exactly once, when the module is loaded, so the default is a
function of the module-load time only. -/
def registerTokenDefaultExpiresAt (moduleLoadTime : DateTime) : DateTime :=
  moduleLoadTime + 120

/-- Constructing a `RegisterToken` without an explicit `expires_at`
argument (`models.py`).  `moduleLoadTime` is the wall-clock time at which
`models.py` was imported; the time at which the construction itself
happens does not enter the computation, faithfully to the Python
dataclass default semantics. -/
def RegisterToken.mkDefault (moduleLoadTime : DateTime)
    (user_id username display_name : String) : RegisterToken :=
  { user_id := user_id
    username := username
    display_name := display_name
    expires_at := registerTokenDefaultExpiresAt moduleLoadTime }

/-- `RegisteredToken` response record (`models.py`). -/
structure RegisteredToken where
  token : String
deriving Repr, DecidableEq

/-- `VerifySignIn` request record (`models.py`). -/
structure VerifySignIn where
  token : String
deriving Repr, DecidableEq

/-- `VerifiedUser` response record (`models.py`). -/
structure VerifiedUser where
  success : Bool
  user_id : String
  timestamp : DateTime
  rp_id : String
  origin : String
  device : String
  country : String
  nickname : String
  credential_id : String
  expires_at : DateTime
  token_id : String
  type : String
deriving Repr, DecidableEq

/-- `UserSummary` response record (`models.py`). -/
structure UserSummary where
  user_id : String
  alias_count : Nat
  aliases : List String
  credentials_count : Nat
  last_used_at : DateTime
deriving Repr, DecidableEq

/-- `DeleteUser` request record (`models.py`). -/
structure DeleteUser where
  user_id : String
deriving Repr, DecidableEq

/-- Modelled from the spec: `PasswordlessProblemDetails` lives in
`errors.py`, which is not among the given sources.  Per the spec's data
model it carries `type` (URI string), `status` (integer), `title` and
`detail` (strings). -/
structure PasswordlessProblemDetails where
  type : String
  status : Nat
  title : String
  detail : String
deriving Repr, DecidableEq

/-- Modelled from the spec: `PasswordlessOptions` lives in `config.py`,
which is not among the given sources.  Per the spec it supplies the base
URL and the static API secret. -/
structure PasswordlessOptions where
  api_url : String
  api_secret : String
deriving Repr, DecidableEq

/-! ## Serialization layer

`serialization.py` is part of the repository but is not among the given
sources, so the schemas are modelled from the spec: each record maps 1:1
to wire fields in the service's camel casing, list envelopes unwrap into
`values` preserving order, and decoding is strict (absent or mistyped
required fields fail the decode).  Wire date-time strings are modelled as
the timestamp value they denote. -/

/-- Modelled from the spec: strict `PasswordlessProblemDetailsSchema`
decoding (`serialization.py` is not among the given sources). -/
def decodeProblemDetails (j : Json) : Option PasswordlessProblemDetails := do
  let ty ← (j.getField "type").bind Json.asString
  let st ← (j.getField "status").bind Json.asNat
  let ti ← (j.getField "title").bind Json.asString
  let de ← (j.getField "detail").bind Json.asString
  pure { type := ty, status := st, title := ti, detail := de }

/-- Modelled from the spec: wire encoding of a `ProblemDetails` document. -/
def encodeProblemDetails (pd : PasswordlessProblemDetails) : Json :=
  .obj [("type", .str pd.type), ("status", .num pd.status),
        ("title", .str pd.title), ("detail", .str pd.detail)]

/-- Modelled from the spec: wire encoding of one `Alias` response item. -/
def encodeAlias (a : Alias) : Json :=
  .obj [("userId", .str a.user_id), ("alias", .str a.«alias»),
        ("plaintext", .str a.plaintext), ("tenant", .str a.tenant)]

/-- Modelled from the spec: strict decoding of one `Alias` response item. -/
def decodeAlias (j : Json) : Option Alias := do
  let u ← (j.getField "userId").bind Json.asString
  let a ← (j.getField "alias").bind Json.asString
  let p ← (j.getField "plaintext").bind Json.asString
  let t ← (j.getField "tenant").bind Json.asString
  pure { user_id := u, «alias» := a, plaintext := p, tenant := t }

/-- Modelled from the spec: wire encoding of a `CredentialDescriptor`;
an absent `transports` is encoded as JSON null. -/
def encodeCredentialDescriptor (d : CredentialDescriptor) : Json :=
  .obj [("type", .str d.type), ("id", .str d.id),
        ("transports", match d.transports with
          | none => .null
          | some ts => .arr (ts.map Json.str))]

/-- Modelled from the spec: strict decoding of a `CredentialDescriptor`
(`transports` being optional, null decodes to an absent value). -/
def decodeCredentialDescriptor (j : Json) : Option CredentialDescriptor := do
  let ty ← (j.getField "type").bind Json.asString
  let i ← (j.getField "id").bind Json.asString
  let ts ← match j.getField "transports" with
    | some .null => pure (none : Option (List String))
    | some (.arr xs) => (decodeListWith Json.asString xs).map some
    | _ => none
  pure { type := ty, id := i, transports := ts }

/-- Modelled from the spec: wire encoding of one `Credential` response
item. -/
def encodeCredential (c : Credential) : Json :=
  .obj [("descriptor", encodeCredentialDescriptor c.descriptor),
        ("publicKey", .str c.public_key),
        ("userHandle", .str c.user_handle),
        ("signatureCounter", .num c.signature_counter),
        ("attestationFmt", .str c.attestation_fmt),
        ("createdAt", .num c.created_at),
        ("aaGuid", .str c.aa_guid),
        ("lastUserAt", .num c.last_user_at),
        ("rpId", .str c.rp_id),
        ("origin", .str c.origin),
        ("country", .str c.country),
        ("device", .str c.device),
        ("userId", .str c.user_id)]

/-- Modelled from the spec: strict decoding of one `Credential` response
item. -/
def decodeCredential (j : Json) : Option Credential := do
  let de ← (j.getField "descriptor").bind decodeCredentialDescriptor
  let pk ← (j.getField "publicKey").bind Json.asString
  let uh ← (j.getField "userHandle").bind Json.asString
  let sc ← (j.getField "signatureCounter").bind Json.asNat
  let af ← (j.getField "attestationFmt").bind Json.asString
  let ca ← (j.getField "createdAt").bind Json.asNat
  let ag ← (j.getField "aaGuid").bind Json.asString
  let lu ← (j.getField "lastUserAt").bind Json.asNat
  let rp ← (j.getField "rpId").bind Json.asString
  let og ← (j.getField "origin").bind Json.asString
  let co ← (j.getField "country").bind Json.asString
  let dv ← (j.getField "device").bind Json.asString
  let ui ← (j.getField "userId").bind Json.asString
  pure { descriptor := de, public_key := pk, user_handle := uh,
         signature_counter := sc, attestation_fmt := af, created_at := ca,
         aa_guid := ag, last_user_at := lu, rp_id := rp, origin := og,
         country := co, device := dv, user_id := ui }

/-- Modelled from the spec: wire encoding of one `UserSummary` response
item. -/
def encodeUserSummary (u : UserSummary) : Json :=
  .obj [("userId", .str u.user_id),
        ("aliasCount", .num u.alias_count),
        ("aliases", .arr (u.aliases.map Json.str)),
        ("credentialsCount", .num u.credentials_count),
        ("lastUsedAt", .num u.last_used_at)]

/-- Modelled from the spec: strict decoding of one `UserSummary` response
item. -/
def decodeUserSummary (j : Json) : Option UserSummary := do
  let ui ← (j.getField "userId").bind Json.asString
  let ac ← (j.getField "aliasCount").bind Json.asNat
  let al ← (j.getField "aliases").bind Json.asArr
  let al ← decodeListWith Json.asString al
  let cc ← (j.getField "credentialsCount").bind Json.asNat
  let lu ← (j.getField "lastUsedAt").bind Json.asNat
  pure { user_id := ui, alias_count := ac, aliases := al,
         credentials_count := cc, last_used_at := lu }

/-- Modelled from the spec: wire encoding of a `ListResponse` envelope:
the items, in order, under a `values` field. -/
def encodeListResponse (enc : α → Json) (lr : ListResponse α) : Json :=
  .obj [("values", .arr (lr.values.map enc))]

/-- Modelled from the spec: strict decoding of a `ListResponse` envelope,
unwrapping `values` and preserving server-supplied order. -/
def decodeListResponse (dec : Json → Option α) (j : Json) :
    Option (ListResponse α) := do
  let vs ← (j.getField "values").bind Json.asArr
  let xs ← decodeListWith dec vs
  pure { values := xs }

/-- Modelled from the spec: `AliasListResponseSchema.loads`. -/
def decodeAliasListResponse : Json → Option (ListResponse Alias) :=
  decodeListResponse decodeAlias

/-- Modelled from the spec: `CredentialListResponseSchema.loads`. -/
def decodeCredentialListResponse : Json → Option (ListResponse Credential) :=
  decodeListResponse decodeCredential

/-- Modelled from the spec: `UserSummaryListResponseSchema.loads`. -/
def decodeUserSummaryListResponse : Json → Option (ListResponse UserSummary) :=
  decodeListResponse decodeUserSummary

/-- Modelled from the spec: wire encoding of a `CreateAlias` request
payload (`CreateAliasSchema.dumps`). -/
def encodeCreateAlias (c : CreateAlias) : Json :=
  .obj [("userId", .str c.user_id),
        ("aliases", .arr (c.aliases.map Json.str)),
        ("hashing", .bool c.hashing)]

/-- Modelled from the spec: wire encoding of an `UpdateAppsFeature`
request payload (`UpdateAppsFeatureSchema.dumps`). -/
def encodeUpdateAppsFeature (u : UpdateAppsFeature) : Json :=
  .obj [("auditLoggingRetentionPeriod", .num u.audit_logging_retention_period)]

/-- Modelled from the spec: wire encoding of a `DeleteCredential` request
payload (`DeleteCredentialSchema.dumps`). -/
def encodeDeleteCredential (d : DeleteCredential) : Json :=
  .obj [("credentialId", .str d.credential_id)]

/-- Modelled from the spec: wire encoding of a `RegisterToken` request
payload (`RegisterTokenSchema.dumps`). -/
def encodeRegisterToken (r : RegisterToken) : Json :=
  .obj [("userId", .str r.user_id),
        ("username", .str r.username),
        ("displayName", .str r.display_name),
        ("attestation", .str r.attestation),
        ("authenticatorType", .str r.authenticator_type),
        ("discoverable", .bool r.discoverable),
        ("userVerification", .str r.user_verification),
        ("aliases", .arr (r.aliases.map Json.str)),
        ("aliasHashing", .bool r.alias_hashing),
        ("expiresAt", .num r.expires_at)]

/-- Modelled from the spec: wire encoding of a `VerifySignIn` request
payload (`VerifySignInSchema.dumps`). -/
def encodeVerifySignIn (v : VerifySignIn) : Json :=
  .obj [("token", .str v.token)]

/-- Modelled from the spec: wire encoding of a `DeleteUser` request
payload (`DeleteUserSchema.dumps`). -/
def encodeDeleteUser (d : DeleteUser) : Json :=
  .obj [("userId", .str d.user_id)]

/-- Modelled from the spec: strict `RegisteredTokenSchema.loads`. -/
def decodeRegisteredToken (j : Json) : Option RegisteredToken := do
  let t ← (j.getField "token").bind Json.asString
  pure { token := t }

/-- Modelled from the spec: strict `VerifiedUserSchema.loads`. -/
def decodeVerifiedUser (j : Json) : Option VerifiedUser := do
  let su ← (j.getField "success").bind Json.asBool
  let ui ← (j.getField "userId").bind Json.asString
  let ts ← (j.getField "timestamp").bind Json.asNat
  let rp ← (j.getField "rpId").bind Json.asString
  let og ← (j.getField "origin").bind Json.asString
  let dv ← (j.getField "device").bind Json.asString
  let co ← (j.getField "country").bind Json.asString
  let ni ← (j.getField "nickname").bind Json.asString
  let ci ← (j.getField "credentialId").bind Json.asString
  let ea ← (j.getField "expiresAt").bind Json.asNat
  let ti ← (j.getField "tokenId").bind Json.asString
  let ty ← (j.getField "type").bind Json.asString
  pure { success := su, user_id := ui, timestamp := ts, rp_id := rp,
         origin := og, device := dv, country := co, nickname := ni,
         credential_id := ci, expires_at := ea, token_id := ti, type := ty }

/-! ## HTTP layer and error normalizer (`client.py`) -/

/-- An outgoing HTTP request as built by the client (`requests.Request`):
method, URL, headers, query parameters and an optional JSON body. -/
structure Request where
  method : String
  url : String
  headers : List (String × String)
  params : List (String × String)
  data : Option Json

/-- An incoming HTTP response as the transport delivers it: status code,
headers, the raw body text, and the JSON parse of that text (`none` when
the text is not well-formed JSON; the string-level JSON grammar is not
re-embedded). -/
structure HttpResponse where
  status : Nat
  headers : List (String × String)
  text : String
  json : Option Json

/-- ASCII lower-casing of one character (header names are ASCII). -/
def lowerAsciiChar (c : Char) : Char :=
  if c.isUpper then Char.ofNat (c.toNat + 32) else c

/-- Case-insensitive string comparison on ASCII strings. -/
def eqCaseInsensitive (a b : String) : Bool :=
  a.data.map lowerAsciiChar == b.data.map lowerAsciiChar

/-- `str.startswith(pre)`. -/
def strStartsWith (s pre : String) : Bool :=
  pre.data.isPrefixOf s.data

/-- Header lookup; `requests` exposes response headers as a
case-insensitive dictionary, so the lookup compares names
case-insensitively. -/
def headerValue (headers : List (String × String)) (key : String) :
    Option String :=
  (headers.find? (fun p => eqCaseInsensitive p.fst key)).map Prod.snd

/-- The content-type test of `handle_response_error` (`client.py` lines
57-58): the `Content-Type` header is present and its value starts with
`application/problem+json`. -/
def hasProblemJsonContentType (r : HttpResponse) : Bool :=
  match headerValue r.headers "Content-Type" with
  | some v => strStartsWith v "application/problem+json"
  | none => false

/-- What a client call can raise: either a deserialization failure
(marshmallow raising while decoding a body) or the normalized
`PasswordlessError` wrapping a `PasswordlessProblemDetails`. -/
inductive Raised where
  | parseFailure : Raised
  | passwordlessError (pd : PasswordlessProblemDetails) : Raised
deriving Repr, DecidableEq

/-- The fallback `PasswordlessProblemDetails` synthesized by
`handle_response_error` (`client.py` lines 65-69). -/
def synthesizedProblemDetails (r : HttpResponse) : PasswordlessProblemDetails :=
  { type := "https://docs.passwordless.dev/guide/errors.html"
    status := r.status
    title := "Unexpected error"
    detail := r.text }

/-- `handle_response_error` (`client.py` lines 55-73): when the response
`Content-Type` begins with `application/problem+json` the body is decoded
by the strict problem-details schema — a decode failure propagates as the
raised deserialization error — and the decoded record is raised wrapped
in `PasswordlessError`; otherwise the fallback record is synthesized and
raised.  The function always raises, so it returns the `Raised` value. -/
def handle_response_error (r : HttpResponse) : Raised :=
  let problem_details : Option (Option PasswordlessProblemDetails) :=
    if hasProblemJsonContentType r then
      match r.json.bind decodeProblemDetails with
      | some pd => some (some pd)
      | none => none
    else some none
  match problem_details with
  | none => .parseFailure
  | some (some pd) => .passwordlessError pd
  | some none => .passwordlessError (synthesizedProblemDetails r)

/-- `send_request` (`client.py` lines 178-193), response-handling half:
the transport send itself is external, so the function takes the response
the transport produced.  A status of 400 or above goes through
`handle_response_error` (which raises); otherwise the raw body text is
returned. -/
def send_request_result (r : HttpResponse) : Except Raised String :=
  if 400 ≤ r.status then .error (handle_response_error r)
  else .ok r.text

/-! ## API client (`client.py`) -/

/-- `PasswordlessApiClientImpl.build_url` (`client.py` lines 195-196):
plain string concatenation of the configured base URL and the path. -/
def build_url (options : PasswordlessOptions) (path : String) : String :=
  options.api_url ++ path

/-- `PasswordlessApiClientImpl.build_headers` (`client.py` lines
198-204): always the `ApiSecret` header; on POST additionally the JSON
content type. -/
def build_headers (options : PasswordlessOptions) (post : Bool := false) :
    List (String × String) :=
  let headers := [("ApiSecret", options.api_secret)]
  if post then headers ++ [("Content-Type", "application/json; charset=UTF-8")]
  else headers

/-- `PasswordlessApiClientImpl.get_request` (`client.py` lines 163-170):
a GET request with optional query parameters defaulting to none. -/
def get_request (options : PasswordlessOptions) (path : String)
    (query_params : Option (List (String × String)) := none) : Request :=
  let query_params := match query_params with
    | none => []
    | some qp => qp
  { method := "GET", url := build_url options path,
    headers := build_headers options, params := query_params, data := none }

/-- `PasswordlessApiClientImpl.post_request` (`client.py` lines 172-176):
a POST request carrying a JSON body and no query parameters. -/
def post_request (options : PasswordlessOptions) (path : String)
    (data : Json) : Request :=
  { method := "POST", url := build_url options path,
    headers := build_headers options true, params := [], data := some data }

/-- `create_alias` (`client.py` lines 82-88), request-building half. -/
def create_alias_request (options : PasswordlessOptions)
    (create_alias : CreateAlias) : Request :=
  post_request options "/alias" (encodeCreateAlias create_alias)

/-- `create_alias` (`client.py` lines 82-88), response-handling half: the
result of `send_request` is discarded and the method returns `None`. -/
def create_alias_onResponse (r : HttpResponse) : Except Raised Unit := do
  let _ ← send_request_result r
  pure ()

/-- `get_aliases` (`client.py` lines 90-97), request-building half. -/
def get_aliases_request (options : PasswordlessOptions) (user_id : String) :
    Request :=
  get_request options "/alias/list" (some [("userId", user_id)])

/-- `get_aliases` (`client.py` lines 90-97), response-handling half: the
body of a non-error response is decoded as an alias list envelope and its
`values` are returned; a decode failure raises. -/
def get_aliases_onResponse (r : HttpResponse) : Except Raised (List Alias) := do
  let _ ← send_request_result r
  match r.json.bind decodeAliasListResponse with
  | some list_response => pure list_response.values
  | none => .error .parseFailure

/-- `update_apps_feature` (`client.py` lines 99-105), request-building
half. -/
def update_apps_feature_request (options : PasswordlessOptions)
    (update_apps_feature : UpdateAppsFeature) : Request :=
  post_request options "/apps/features"
    (encodeUpdateAppsFeature update_apps_feature)

/-- `update_apps_feature` (`client.py` lines 99-105), response-handling
half. -/
def update_apps_feature_onResponse (r : HttpResponse) : Except Raised Unit := do
  let _ ← send_request_result r
  pure ()

/-- `delete_credential` (`client.py` lines 107-113), request-building
half. -/
def delete_credential_request (options : PasswordlessOptions)
    (delete_credential : DeleteCredential) : Request :=
  post_request options "/credentials/delete"
    (encodeDeleteCredential delete_credential)

/-- `delete_credential` (`client.py` lines 107-113), response-handling
half. -/
def delete_credential_onResponse (r : HttpResponse) : Except Raised Unit := do
  let _ ← send_request_result r
  pure ()

/-- `get_credentials` (`client.py` lines 115-122), request-building
half. -/
def get_credentials_request (options : PasswordlessOptions)
    (user_id : String) : Request :=
  get_request options "/credentials/list" (some [("userId", user_id)])

/-- `get_credentials` (`client.py` lines 115-122), response-handling
half. -/
def get_credentials_onResponse (r : HttpResponse) :
    Except Raised (List Credential) := do
  let _ ← send_request_result r
  match r.json.bind decodeCredentialListResponse with
  | some list_response => pure list_response.values
  | none => .error .parseFailure

/-- `register_token` (`client.py` lines 124-133), request-building
half. -/
def register_token_request (options : PasswordlessOptions)
    (register_token : RegisterToken) : Request :=
  post_request options "/register/token" (encodeRegisterToken register_token)

/-- `register_token` (`client.py` lines 124-133), response-handling
half. -/
def register_token_onResponse (r : HttpResponse) :
    Except Raised RegisteredToken := do
  let _ ← send_request_result r
  match r.json.bind decodeRegisteredToken with
  | some t => pure t
  | none => .error .parseFailure

/-- `sign_in` (`client.py` lines 135-144), request-building half. -/
def sign_in_request (options : PasswordlessOptions)
    (verify_sign_in : VerifySignIn) : Request :=
  post_request options "/signin/verify" (encodeVerifySignIn verify_sign_in)

/-- `sign_in` (`client.py` lines 135-144), response-handling half. -/
def sign_in_onResponse (r : HttpResponse) : Except Raised VerifiedUser := do
  let _ ← send_request_result r
  match r.json.bind decodeVerifiedUser with
  | some u => pure u
  | none => .error .parseFailure

/-- `get_users` (`client.py` lines 146-153), request-building half: note
`get_request` is called without query parameters. -/
def get_users_request (options : PasswordlessOptions) : Request :=
  get_request options "/users/list"

/-- `get_users` (`client.py` lines 146-153), response-handling half. -/
def get_users_onResponse (r : HttpResponse) :
    Except Raised (List UserSummary) := do
  let _ ← send_request_result r
  match r.json.bind decodeUserSummaryListResponse with
  | some list_response => pure list_response.values
  | none => .error .parseFailure

/-- `delete_user` (`client.py` lines 155-161), request-building half. -/
def delete_user_request (options : PasswordlessOptions)
    (delete_user : DeleteUser) : Request :=
  post_request options "/users/delete" (encodeDeleteUser delete_user)

/-- `delete_user` (`client.py` lines 155-161), response-handling half. -/
def delete_user_onResponse (r : HttpResponse) : Except Raised Unit := do
  let _ ← send_request_result r
  pure ()

/-! ## Client builder (`client.py` lines 207-216)

The transport `Session` type is external (`requests.Session`); it is
modelled as an arbitrary type `S`.  `Session()` — the construction of a
fresh default session — is modelled by passing the freshly constructed
value explicitly. -/

/-- `PasswordlessApiClientImpl.__init__` (`client.py` lines 78-80): the
client stores its configuration and its transport session. -/
structure PasswordlessApiClientImpl (S : Type) where
  options : PasswordlessOptions
  session : S

/-- `PasswordlessApiClientBuilder.__init__` (`client.py` lines 209-213):
stores the options, and the given session when one is supplied, otherwise
the freshly constructed default session (`Session()` is modelled by the
explicit argument `freshSession`). -/
structure PasswordlessApiClientBuilder (S : Type) where
  options : PasswordlessOptions
  session : S

/-- The builder constructor (`client.py` lines 209-213). -/
def mkPasswordlessApiClientBuilder (options : PasswordlessOptions)
    (session : Option S) (freshSession : S) :
    PasswordlessApiClientBuilder S :=
  let session := match session with
    | none => freshSession
    | some s => s
  { options := options, session := session }

/-- `PasswordlessApiClientBuilder.build` (`client.py` lines 215-216). -/
def PasswordlessApiClientBuilder.build (b : PasswordlessApiClientBuilder S) :
    PasswordlessApiClientImpl S :=
  { options := b.options, session := b.session }

/-! ## Serialization lemmas -/

theorem Json.asNat_num_natCast (n : Nat) : Json.asNat (Json.num n) = some n := by
  simp [Json.asNat]

theorem decodeListWith_map (dec : Json → Option α) (enc : α → Json)
    (h : ∀ x, dec (enc x) = some x) (xs : List α) :
    decodeListWith dec (xs.map enc) = some xs := by
  induction xs with
  | nil => simp [decodeListWith]
  | cons x xs ih => simp [decodeListWith, h, ih]

theorem decodeListWith_str (xs : List String) :
    decodeListWith Json.asString (xs.map Json.str) = some xs :=
  decodeListWith_map Json.asString Json.str (fun _ => rfl) xs

theorem decodeProblemDetails_encode (pd : PasswordlessProblemDetails) :
    decodeProblemDetails (encodeProblemDetails pd) = some pd := by
  simp [decodeProblemDetails, encodeProblemDetails, Json.getField,
        Json.asString, Json.asNat_num_natCast]

theorem decodeAlias_encode (a : Alias) :
    decodeAlias (encodeAlias a) = some a := rfl

theorem decodeCredentialDescriptor_encode (d : CredentialDescriptor) :
    decodeCredentialDescriptor (encodeCredentialDescriptor d) = some d := by
  cases d with
  | mk ty i ts =>
    cases ts with
    | none => rfl
    | some l =>
      simp [decodeCredentialDescriptor, encodeCredentialDescriptor,
            Json.getField, Json.asString, decodeListWith_str]

theorem decodeCredential_encode (c : Credential) :
    decodeCredential (encodeCredential c) = some c := by
  simp [decodeCredential, encodeCredential, Json.getField, Json.asString,
        Json.asNat_num_natCast, decodeCredentialDescriptor_encode]

theorem decodeUserSummary_encode (u : UserSummary) :
    decodeUserSummary (encodeUserSummary u) = some u := by
  simp [decodeUserSummary, encodeUserSummary, Json.getField, Json.asString,
        Json.asNat_num_natCast, decodeListWith_str, Json.asArr]

theorem decodeListResponse_encode (dec : Json → Option α) (enc : α → Json)
    (h : ∀ x, dec (enc x) = some x) (lr : ListResponse α) :
    decodeListResponse dec (encodeListResponse enc lr) = some lr := by
  simp [decodeListResponse, encodeListResponse, Json.getField, Json.asArr,
        decodeListWith_map dec enc h]

/-! ## Claims -/

/-- C1, counterexample: the claim that error normalization never raises a
parse error for any body is false.  A status-400 response whose
`Content-Type` is `application/problem+json` but whose body text
`not json` is not well-formed JSON makes `handle_response_error` raise
the deserialization failure of the strict problem-details schema, not the
normalized `PasswordlessError`. -/
theorem handle_response_error_parse_failure_reachable :
    400 ≤ (HttpResponse.mk 400 [("Content-Type", "application/problem+json")]
      "not json" none).status ∧
    handle_response_error (HttpResponse.mk 400
      [("Content-Type", "application/problem+json")] "not json" none) =
      Raised.parseFailure ∧
    ∀ pd, handle_response_error (HttpResponse.mk 400
      [("Content-Type", "application/problem+json")] "not json" none) ≠
      Raised.passwordlessError pd := by
  refine ⟨by decide, rfl, ?_⟩
  intro pd h
  have h2 : handle_response_error (HttpResponse.mk 400
      [("Content-Type", "application/problem+json")] "not json" none) =
      Raised.parseFailure := rfl
  rw [h2] at h
  exact Raised.noConfusion h

/-- C1, amended: for every response with status at least 400,
`handle_response_error` degrades to the synthesized `ProblemDetails` and
raises the normalized error whenever the `Content-Type` header is missing
or does not begin with `application/problem+json`; when it does begin
with `application/problem+json`, the body is decoded strictly and a body
that fails the decode raises a parse/deserialization error instead. -/
theorem handle_response_error_no_parse_failure_without_problem_json
    (r : HttpResponse) (h : 400 ≤ r.status) :
    (hasProblemJsonContentType r = false →
      handle_response_error r =
        Raised.passwordlessError (synthesizedProblemDetails r)) ∧
    (hasProblemJsonContentType r = true →
      r.json.bind decodeProblemDetails = none →
      handle_response_error r = Raised.parseFailure) := by
  constructor
  · intro hct
    simp [handle_response_error, hct]
  · intro hct hdec
    simp [handle_response_error, hct, hdec]

/-- C1, witness for the amended theorem at a concrete plain-text
500 response. -/
theorem handle_response_error_no_parse_failure_witness :
    400 ≤ (HttpResponse.mk 500 [("Content-Type", "text/plain")]
      "internal error" none).status ∧
    (hasProblemJsonContentType (HttpResponse.mk 500
        [("Content-Type", "text/plain")] "internal error" none) = false →
      handle_response_error (HttpResponse.mk 500 [("Content-Type", "text/plain")]
        "internal error" none) =
        Raised.passwordlessError (synthesizedProblemDetails
          (HttpResponse.mk 500 [("Content-Type", "text/plain")]
            "internal error" none))) :=
  ⟨by decide,
   (handle_response_error_no_parse_failure_without_problem_json
     (HttpResponse.mk 500 [("Content-Type", "text/plain")] "internal error" none)
     (by decide)).1⟩

/-- C2: in `models.py` the default of `RegisterToken.expires_at` is the
expression `datetime.utcnow() + timedelta(minutes=2)` evaluated once at
module load, so every `RegisterToken` constructed without an explicit
`expires_at` gets module-load time plus 120 seconds — a value independent
of when the construction happens and shared by all such constructions —
contradicting the claim that it equals the construction time plus two
minutes. -/
theorem registerToken_default_expires_at_fixed_at_module_load :
    ∀ (moduleLoadTime : DateTime) (u1 n1 d1 u2 n2 d2 : String),
      (RegisterToken.mkDefault moduleLoadTime u1 n1 d1).expires_at =
        moduleLoadTime + 120 ∧
      (RegisterToken.mkDefault moduleLoadTime u1 n1 d1).expires_at =
        (RegisterToken.mkDefault moduleLoadTime u2 n2 d2).expires_at := by
  intro moduleLoadTime u1 n1 d1 u2 n2 d2
  exact ⟨rfl, rfl⟩

/-- C3: every response with status at least 400 whose `Content-Type`
header is missing or does not begin with `application/problem+json` is
normalized to a `PasswordlessError` wrapping a synthesized
`ProblemDetails` with the fixed documentation URL as `type`, the HTTP
status code as `status`, `Unexpected error` as `title` and the raw body
text as `detail`. -/
theorem handle_response_error_synthesizes_fallback (r : HttpResponse)
    (h : 400 ≤ r.status) (hct : hasProblemJsonContentType r = false) :
    handle_response_error r = Raised.passwordlessError
      { type := "https://docs.passwordless.dev/guide/errors.html"
        status := r.status
        title := "Unexpected error"
        detail := r.text } := by
  simp [handle_response_error, hct, synthesizedProblemDetails]

/-- C3, witness: a 500 response with `Content-Type: text/plain` and body
`internal error`. -/
theorem handle_response_error_synthesizes_fallback_witness :
    400 ≤ (HttpResponse.mk 500 [("Content-Type", "text/plain")]
      "internal error" none).status ∧
    hasProblemJsonContentType (HttpResponse.mk 500
      [("Content-Type", "text/plain")] "internal error" none) = false ∧
    handle_response_error (HttpResponse.mk 500 [("Content-Type", "text/plain")]
      "internal error" none) = Raised.passwordlessError
      { type := "https://docs.passwordless.dev/guide/errors.html"
        status := 500
        title := "Unexpected error"
        detail := "internal error" } :=
  ⟨by decide, by decide,
   handle_response_error_synthesizes_fallback
     (HttpResponse.mk 500 [("Content-Type", "text/plain")] "internal error" none)
     (by decide) (by decide)⟩

/-- C4: every response with status at least 400 whose `Content-Type`
begins with `application/problem+json` and whose body is a valid
problem-details document is decoded by the strict schema, and the raised
error wraps exactly the decoded `ProblemDetails`, not a synthesized one. -/
theorem handle_response_error_uses_decoded_problem_details
    (r : HttpResponse) (pd : PasswordlessProblemDetails)
    (h : 400 ≤ r.status) (hct : hasProblemJsonContentType r = true)
    (hdec : r.json.bind decodeProblemDetails = some pd) :
    handle_response_error r = Raised.passwordlessError pd := by
  simp [handle_response_error, hct, hdec]

/-- C4, witness: a 400 response carrying the problem-details document
with title `Bad user` and detail `username taken`. -/
theorem handle_response_error_uses_decoded_problem_details_witness :
    400 ≤ (HttpResponse.mk 400
      [("Content-Type", "application/problem+json")] "body"
      (some (encodeProblemDetails
        { type := "https://docs.passwordless.dev/errors", status := 400,
          title := "Bad user", detail := "username taken" }))).status ∧
    handle_response_error (HttpResponse.mk 400
      [("Content-Type", "application/problem+json")] "body"
      (some (encodeProblemDetails
        { type := "https://docs.passwordless.dev/errors", status := 400,
          title := "Bad user", detail := "username taken" }))) =
      Raised.passwordlessError
        { type := "https://docs.passwordless.dev/errors", status := 400,
          title := "Bad user", detail := "username taken" } :=
  ⟨by decide,
   handle_response_error_uses_decoded_problem_details
     (HttpResponse.mk 400 [("Content-Type", "application/problem+json")] "body"
       (some (encodeProblemDetails
         { type := "https://docs.passwordless.dev/errors", status := 400,
           title := "Bad user", detail := "username taken" })))
     { type := "https://docs.passwordless.dev/errors", status := 400,
       title := "Bad user", detail := "username taken" }
     (by decide) (by decide)
     (by simp [decodeProblemDetails_encode])⟩

/-- C5, counterexample: the claim that a no-return operation raises on
every response outside the 2xx range is false.  `send_request` only
treats status 400 and above as an error, so a 300 response — not in the
2xx range — makes `create_alias` return normally. -/
theorem create_alias_returns_normally_on_300 :
    ¬ (200 ≤ (HttpResponse.mk 300 [] "" none).status ∧
       (HttpResponse.mk 300 [] "" none).status < 300) ∧
    create_alias_onResponse (HttpResponse.mk 300 [] "" none) =
      Except.ok () := by
  exact ⟨by decide, rfl⟩

/-- C5, amended: `create_alias` returns no value and raises nothing for
every response with status below 400 (in particular every 2xx), and for
every response with status 400 or above it does not return normally: it
raises whatever `handle_response_error` raises (the normalized error, or
a deserialization error for an undecodable problem+json body). -/
theorem create_alias_success_boundary_is_400 (r : HttpResponse) :
    (r.status < 400 → create_alias_onResponse r = Except.ok ()) ∧
    (400 ≤ r.status →
      create_alias_onResponse r = Except.error (handle_response_error r)) := by
  constructor
  · intro h
    have hn : ¬ 400 ≤ r.status := by omega
    simp [create_alias_onResponse, send_request_result, hn]
  · intro h
    simp [create_alias_onResponse, send_request_result, h]

/-- C5, witness for the amended theorem: a 204 response makes
`create_alias` return normally. -/
theorem create_alias_success_boundary_witness :
    (HttpResponse.mk 204 [] "" none).status < 400 ∧
    create_alias_onResponse (HttpResponse.mk 204 [] "" none) =
      Except.ok () :=
  ⟨by decide,
   (create_alias_success_boundary_is_400 (HttpResponse.mk 204 [] "" none)).1
     (by decide)⟩

/-- C6: on a successful response carrying a list envelope, `get_aliases`,
`get_credentials` and `get_users` return exactly the server-supplied
elements in the server-supplied order; with zero items they return the
empty sequence rather than raising. -/
theorem list_operations_preserve_order_and_accept_empty
    (as : List Alias) (cs : List Credential) (us : List UserSummary)
    (r1 r2 r3 : HttpResponse)
    (h1 : r1.status < 400) (h2 : r2.status < 400) (h3 : r3.status < 400)
    (e1 : r1.json = some (encodeListResponse encodeAlias ⟨as⟩))
    (e2 : r2.json = some (encodeListResponse encodeCredential ⟨cs⟩))
    (e3 : r3.json = some (encodeListResponse encodeUserSummary ⟨us⟩)) :
    get_aliases_onResponse r1 = Except.ok as ∧
    get_credentials_onResponse r2 = Except.ok cs ∧
    get_users_onResponse r3 = Except.ok us := by
  have n1 : ¬ 400 ≤ r1.status := by omega
  have n2 : ¬ 400 ≤ r2.status := by omega
  have n3 : ¬ 400 ≤ r3.status := by omega
  refine ⟨?_, ?_, ?_⟩
  · simp [get_aliases_onResponse, send_request_result, n1, e1,
          decodeAliasListResponse,
          decodeListResponse_encode decodeAlias encodeAlias decodeAlias_encode]
  · simp [get_credentials_onResponse, send_request_result, n2, e2,
          decodeCredentialListResponse,
          decodeListResponse_encode decodeCredential encodeCredential
            decodeCredential_encode]
  · simp [get_users_onResponse, send_request_result, n3, e3,
          decodeUserSummaryListResponse,
          decodeListResponse_encode decodeUserSummary encodeUserSummary
            decodeUserSummary_encode]

/-- C6, witness: the three list operations on concrete 200 responses
whose envelopes carry zero items return the empty sequence. -/
theorem list_operations_empty_witness :
    (HttpResponse.mk 200 [] "" (some (encodeListResponse encodeAlias ⟨[]⟩))).status
      < 400 ∧
    (get_aliases_onResponse (HttpResponse.mk 200 [] ""
        (some (encodeListResponse encodeAlias ⟨[]⟩))) = Except.ok [] ∧
     get_credentials_onResponse (HttpResponse.mk 200 [] ""
        (some (encodeListResponse encodeCredential ⟨[]⟩))) = Except.ok [] ∧
     get_users_onResponse (HttpResponse.mk 200 [] ""
        (some (encodeListResponse encodeUserSummary ⟨[]⟩))) = Except.ok []) :=
  ⟨by decide,
   list_operations_preserve_order_and_accept_empty [] [] []
     (HttpResponse.mk 200 [] "" (some (encodeListResponse encodeAlias ⟨[]⟩)))
     (HttpResponse.mk 200 [] "" (some (encodeListResponse encodeCredential ⟨[]⟩)))
     (HttpResponse.mk 200 [] "" (some (encodeListResponse encodeUserSummary ⟨[]⟩)))
     (by decide) (by decide) (by decide) rfl rfl rfl⟩

/-- C7: every request built by the client — each operation builds its
request through `get_request` or `post_request` — carries the `ApiSecret`
header with the configured secret; POST requests additionally carry
`Content-Type: application/json; charset=UTF-8`, and GET requests carry
no `Content-Type` header. -/
theorem requests_carry_api_secret_and_json_content_type
    (options : PasswordlessOptions) (path : String)
    (query_params : Option (List (String × String))) (data : Json) :
    headerValue (get_request options path query_params).headers "ApiSecret" =
      some options.api_secret ∧
    headerValue (post_request options path data).headers "ApiSecret" =
      some options.api_secret ∧
    headerValue (post_request options path data).headers "Content-Type" =
      some "application/json; charset=UTF-8" ∧
    headerValue (get_request options path query_params).headers "Content-Type" =
      none :=
  ⟨rfl, rfl, rfl, rfl⟩

/-- C8: every operation's request URL is the configured base URL
concatenated (plain string append, no separator normalization) with the
operation's fixed path; only `get_aliases` and `get_credentials` send a
query parameter (`userId` set to the given user id), and every other
operation — `get_users` in particular — sends none. -/
theorem request_urls_are_plain_concatenation
    (o : PasswordlessOptions) (user_id : String) (ca : CreateAlias)
    (uaf : UpdateAppsFeature) (dc : DeleteCredential) (rt : RegisterToken)
    (vs : VerifySignIn) (du : DeleteUser) :
    (∀ path, build_url o path = o.api_url ++ path) ∧
    (create_alias_request o ca).url = o.api_url ++ "/alias" ∧
    (create_alias_request o ca).params = [] ∧
    (get_aliases_request o user_id).url = o.api_url ++ "/alias/list" ∧
    (get_aliases_request o user_id).params = [("userId", user_id)] ∧
    (update_apps_feature_request o uaf).url = o.api_url ++ "/apps/features" ∧
    (update_apps_feature_request o uaf).params = [] ∧
    (delete_credential_request o dc).url = o.api_url ++ "/credentials/delete" ∧
    (delete_credential_request o dc).params = [] ∧
    (get_credentials_request o user_id).url = o.api_url ++ "/credentials/list" ∧
    (get_credentials_request o user_id).params = [("userId", user_id)] ∧
    (register_token_request o rt).url = o.api_url ++ "/register/token" ∧
    (register_token_request o rt).params = [] ∧
    (sign_in_request o vs).url = o.api_url ++ "/signin/verify" ∧
    (sign_in_request o vs).params = [] ∧
    (get_users_request o).url = o.api_url ++ "/users/list" ∧
    (get_users_request o).params = [] ∧
    (delete_user_request o du).url = o.api_url ++ "/users/delete" ∧
    (delete_user_request o du).params = [] :=
  ⟨fun _ => rfl, rfl, rfl, rfl, rfl, rfl, rfl, rfl, rfl, rfl, rfl, rfl, rfl,
   rfl, rfl, rfl, rfl, rfl, rfl⟩

/-- C9: the client builder stores exactly the supplied transport session
when one is given and the freshly constructed default session when none
is given, and `build` produces a client holding the builder's
configuration and that session. -/
theorem builder_uses_given_or_fresh_session (S : Type)
    (o : PasswordlessOptions) (s freshSession : S) :
    (mkPasswordlessApiClientBuilder o (some s) freshSession).build =
      PasswordlessApiClientImpl.mk o s ∧
    (mkPasswordlessApiClientBuilder o none freshSession).build =
      PasswordlessApiClientImpl.mk o freshSession :=
  ⟨rfl, rfl⟩

/-- C10: each no-return operation (`create_alias`, `update_apps_feature`,
`delete_credential`, `delete_user`) returns `None` on any 2xx response
regardless of the response body — the body is never decoded, so no body
can change the returned value. -/
theorem noreturn_operations_ignore_body_on_2xx (r : HttpResponse)
    (h1 : 200 ≤ r.status) (h2 : r.status < 300) :
    create_alias_onResponse r = Except.ok () ∧
    update_apps_feature_onResponse r = Except.ok () ∧
    delete_credential_onResponse r = Except.ok () ∧
    delete_user_onResponse r = Except.ok () := by
  have hn : ¬ 400 ≤ r.status := by omega
  refine ⟨?_, ?_, ?_, ?_⟩ <;>
    simp [create_alias_onResponse, update_apps_feature_onResponse,
          delete_credential_onResponse, delete_user_onResponse,
          send_request_result, hn]

/-- C10, witness: a 204 response with an unexpected non-empty body still
yields `None` from each no-return operation. -/
theorem noreturn_operations_ignore_body_witness :
    (200 ≤ (HttpResponse.mk 204 [] "unexpected body"
      (some (Json.str "unexpected body"))).status ∧
     (HttpResponse.mk 204 [] "unexpected body"
      (some (Json.str "unexpected body"))).status < 300) ∧
    (create_alias_onResponse (HttpResponse.mk 204 [] "unexpected body"
        (some (Json.str "unexpected body"))) = Except.ok () ∧
     update_apps_feature_onResponse (HttpResponse.mk 204 [] "unexpected body"
        (some (Json.str "unexpected body"))) = Except.ok () ∧
     delete_credential_onResponse (HttpResponse.mk 204 [] "unexpected body"
        (some (Json.str "unexpected body"))) = Except.ok () ∧
     delete_user_onResponse (HttpResponse.mk 204 [] "unexpected body"
        (some (Json.str "unexpected body"))) = Except.ok ()) :=
  ⟨⟨by decide, by decide⟩,
   noreturn_operations_ignore_body_on_2xx
     (HttpResponse.mk 204 [] "unexpected body" (some (Json.str "unexpected body")))
     (by decide) (by decide)⟩
